import Mathlib

/-!
Verification of the credential-error normalizer in
`src/examples/credential-modernization/aws_sso_example.py`.

The file shallowly embeds the Python code:
exceptions become an inductive type, awaiting the wrapped operation
becomes a value of an outcome type, stderr becomes an accumulated
list of printed strings, and dictionary lookup on the structured
error response becomes an optional-field lookup that raises a
KeyError when the field is absent.
-/

namespace AwsSso

/-- An AWS error object inside a ClientError response: the `Code` and
`Message` fields of `e.response['Error']`, each of which may be absent. -/
structure ErrorInfo where
  code : Option String
  message : Option String
deriving DecidableEq, Repr

/-- The `response` attribute of a botocore ClientError: the `Error` field
may itself be absent in a malformed response. -/
structure ClientResponse where
  error : Option ErrorInfo
deriving DecidableEq, Repr

/-- The exceptions that can flow through the wrapper in
`aws_sso_example.py`.  `tokenRetrievalError` and `clientError` are the
two caught classes (lines 42 and 49); `cancelledError` models
`asyncio.CancelledError` (a BaseException, caught by neither clause);
`otherError` models any other exception; `awsCredentialError` is the
class defined at line 32; `keyError` models the KeyError raised by a
failing dictionary lookup. Each carries a payload so that object
identity of a re-raised exception is expressible. -/
inductive AwsException where
  | tokenRetrievalError (payload : String)
  | clientError (response : ClientResponse) (payload : String)
  | cancelledError (payload : String)
  | otherError (payload : String)
  | awsCredentialError (msg : String)
  | keyError (key : String)
deriving DecidableEq, Repr

/-- The outcome of awaiting an async operation: a normal return value or
a raised exception. -/
inductive Outcome (α : Type) where
  | ok (v : α)
  | raised (e : AwsException)
deriving DecidableEq, Repr

/-- The lookup `e.response['Error']['Code']` (lines 50, 287, 297): each
missing key raises a KeyError naming the key. -/
def getErrorCode (r : ClientResponse) : Except AwsException String :=
  match r.error with
  | none => .error (.keyError "Error")
  | some info =>
    match info.code with
    | none => .error (.keyError "Code")
    | some c => .ok c

/-- The first remediation message (lines 43-46): a two-line string whose
second line is the re-login command parameterized by the active profile. -/
def error_msg_sso (profile : String) : String :=
  "❌ AWS SSO session expired!\n" ++ ("Please run: aws sso login --profile " ++ profile)

/-- The second remediation message (lines 51-54). -/
def error_msg_expired (profile : String) : String :=
  "❌ Temporary credentials expired!\n" ++ ("Please run: aws sso login --profile " ++ profile)

/-- The body of `wrapper` (lines 39-59), as a function of the outcome of
`await func(*args, **kwargs)`.  The second component is the list of
strings printed to stderr.  `TokenRetrievalError` is converted to
`AWSCredentialError` after printing; a `ClientError` has its
`response['Error']['Code']` inspected (a missing key raises KeyError),
and is converted only when the code is exactly ExpiredToken, otherwise
re-raised as the same object; every other exception is not caught by
either except clause and propagates unchanged. -/
def handle_wrapper {α : Type} (profile : String) (result : Outcome α) :
    Outcome α × List String :=
  match result with
  | .ok v => (.ok v, [])
  | .raised e =>
    match e with
    | .tokenRetrievalError _ =>
      (.raised (.awsCredentialError (error_msg_sso profile)), [error_msg_sso profile])
    | .clientError resp payload =>
      match getErrorCode resp with
      | .error ke => (.raised ke, [])
      | .ok code =>
        if code = "ExpiredToken" then
          (.raised (.awsCredentialError (error_msg_expired profile)),
            [error_msg_expired profile])
        else
          (.raised (.clientError resp payload), [])
    | e => (.raised e, [])

/-- One invocation of the wrapped operation, instrumented with a call
counter: each call increments the counter and produces the operation's
outcome.  The try block at lines 40-41 contains the sole call site
`await func(*args, **kwargs)`. -/
def callOp {α : Type} (op : Outcome α) (calls : Nat) : Outcome α × Nat :=
  (op, calls + 1)

/-- The whole wrapper run on the instrumented operation: call the
operation once (lines 40-41), then classify its outcome (lines 42-59).
There is no loop and no second call site, so the counter advances by
exactly one. -/
def handle_wrapper_instr {α : Type} (profile : String) (op : Outcome α) (calls : Nat) :
    (Outcome α × List String) × Nat :=
  let (r, calls') := callOp op calls
  (handle_wrapper profile r, calls')

/-!
Python object-shape model for the decoration itself.

`handle_aws_errors` is declared with `async def` (line 37).  Calling an
object created by `async def` returns a coroutine object without running
the body; a coroutine object is not callable.  A correct decorator would
be a plain `def` returning `wrapper`, a callable.
-/

/-- The relevant kinds of Python objects for the decoration:
an object created by an `async def` statement, a coroutine object
obtained by calling such an object, and a plain function object. -/
inductive PyKind where
  | asyncFunction
  | coroutineObj
  | plainFunction
deriving DecidableEq, Repr

/-- Python call semantics on object kinds: calling an async function
returns a coroutine object (the body is deferred until awaited);
calling a plain function runs it; calling a coroutine object raises
TypeError. -/
def pyCall : PyKind → Except String PyKind
  | .asyncFunction => .ok .coroutineObj
  | .plainFunction => .ok .plainFunction
  | .coroutineObj => .error "TypeError: coroutine object is not callable"

/-- The object bound to the name `handle_aws_errors`: line 37 declares it
with `async def`, so it is an async function object. -/
def handle_aws_errors_obj : PyKind := .asyncFunction

/-- The `@handle_aws_errors` decoration (line 67): the decorated name is
rebound to the result of calling `handle_aws_errors` on the function
below it. -/
def decorate (_fk : PyKind) : Except String PyKind :=
  match pyCall handle_aws_errors_obj with
  | .ok r => .ok r
  | .error e => .error e

/-- The object bound to the name `get_caller_identity` after decoration
(lines 67-68): `get_caller_identity` is itself an `async def`. -/
def get_caller_identity_obj : Except String PyKind := decorate .asyncFunction

/-- Invoking the decorated name, as `main` does at line 329
(await get_caller_identity()). -/
def invoke_decorated : Except String PyKind :=
  match get_caller_identity_obj with
  | .ok g => pyCall g
  | .error e => .error e

/-!
DynamoDB GetItem model for `get_dynamodb_item` (lines 179-187).
-/

/-- A DynamoDB item, as an association list of attribute names to
string values. -/
abbrev DynamoItem : Type := List (String × String)

/-- A DynamoDB GetItem response: the `Item` field is present exactly when
the table holds an item under the requested key.  AWS omits the field
for a missing item rather than failing the call. -/
structure GetItemResponse where
  item : Option DynamoItem

/-- The DynamoDB service behaviour of `table.get_item(Key=key)` against a
table state mapping keys to optional items: the call succeeds and the
response carries the item exactly when one exists. -/
def dynamodb_get_item (table : String → Option DynamoItem) (key : String) :
    GetItemResponse :=
  { item := table key }

/-- The body of `get_dynamodb_item` (lines 179-187): perform GetItem and
return `response.get('Item')`, which is the absent value when the `Item`
field is missing. -/
def get_dynamodb_item (table : String → Option DynamoItem) (key : String) :
    Outcome (Option DynamoItem) :=
  .ok (dynamodb_get_item table key).item

/-!
CloudWatch Logs model for `put_cloudwatch_log_event` (lines 277-313).
-/

/-- The guard wrapped around each creation call (lines 284-288 and
291-298): a ClientError whose code is ResourceAlreadyExistsException is
suppressed and execution continues; a ClientError with any other code is
re-raised as the same object; a missing key while inspecting the code
raises KeyError; any non-ClientError failure is not caught. -/
def ensure_create (res : Outcome Unit) : Outcome Unit :=
  match res with
  | .ok _ => .ok ()
  | .raised e =>
    match e with
    | .clientError resp payload =>
      match getErrorCode resp with
      | .error ke => .raised ke
      | .ok code =>
        if code ≠ "ResourceAlreadyExistsException" then
          .raised (.clientError resp payload)
        else
          .ok ()
    | e => .raised e

/-- The body of `put_cloudwatch_log_event` (lines 277-313) as a function
of the outcomes of the three SDK calls it makes: create the log group,
create the log stream (each under the already-exists guard), then put the
log event.  The boolean records whether `put_log_events` was reached,
i.e. whether the log event was written. -/
def put_cloudwatch_log_event (grpRes strRes putRes : Outcome Unit) :
    Outcome Unit × Bool :=
  match ensure_create grpRes with
  | .raised e => (.raised e, false)
  | .ok _ =>
    match ensure_create strRes with
    | .raised e => (.raised e, false)
    | .ok _ => (putRes, true)

/-- A ClientError outcome carrying the given structured error code. -/
def clientErrWithCode (code payload : String) : Outcome Unit :=
  .raised (.clientError { error := some { code := some code, message := none } } payload)

/-- Helper: the already-exists guard lets a successful creation through. -/
theorem ensure_create_ok : ensure_create (.ok ()) = .ok () := rfl

/-- Helper: the already-exists guard suppresses a ClientError whose code
is ResourceAlreadyExistsException. -/
theorem ensure_create_already_exists (p : String) :
    ensure_create (clientErrWithCode "ResourceAlreadyExistsException" p) = .ok () := rfl

/-- Helper: the already-exists guard re-raises a ClientError carrying any
other structured code unchanged. -/
theorem ensure_create_other_code (code payload : String) (resp : ClientResponse)
    (hcode : getErrorCode resp = .ok code) (hne : code ≠ "ResourceAlreadyExistsException") :
    ensure_create (.raised (.clientError resp payload)) =
      .raised (.clientError resp payload) := by
  simp [ensure_create, hcode, hne]

/-- C1: the claim says applying handle_aws_errors to an async function
yields a callable of the same shape.  On the code it does not:
handle_aws_errors is itself declared with async def (line 37), so the
decoration binds get_caller_identity to a coroutine object, and invoking
the decorated name (line 329) raises TypeError because a coroutine
object is not callable. -/
theorem decorated_name_not_callable :
    get_caller_identity_obj = .ok .coroutineObj ∧
    invoke_decorated = .error "TypeError: coroutine object is not callable" :=
  ⟨rfl, rfl⟩

/-- C2: if the wrapped operation completes without failure, the wrapper
returns its exact result unchanged and writes nothing to stderr. -/
theorem wrapper_success_passthrough {α : Type} (profile : String) (v : α) :
    handle_wrapper profile (.ok v) = (.ok v, []) := rfl

/-- C3: on TokenRetrievalError the wrapper prints the remediation message
to stderr and raises AWSCredentialError carrying that message; the
message is two lines joined by a single newline, the second line being
the re-login command parameterized by the active profile name. -/
theorem wrapper_token_retrieval {α : Type} (profile payload : String) :
    handle_wrapper profile ((Outcome.raised (.tokenRetrievalError payload)) : Outcome α) =
      (.raised (.awsCredentialError (error_msg_sso profile)), [error_msg_sso profile]) ∧
    error_msg_sso profile =
      "❌ AWS SSO session expired!" ++ "\n" ++
        ("Please run: aws sso login --profile " ++ profile) := by
  constructor
  · rfl
  · have h : ("❌ AWS SSO session expired!\n" : String) =
        "❌ AWS SSO session expired!" ++ "\n" := by decide
    unfold error_msg_sso
    rw [h]

/-- C4: on a ClientError whose structured error code is ExpiredToken, the
wrapper prints the remediation message and raises AWSCredentialError
instead of the original failure. -/
theorem wrapper_expired_token {α : Type} (profile payload : String) (resp : ClientResponse)
    (hcode : getErrorCode resp = .ok "ExpiredToken") :
    handle_wrapper profile ((Outcome.raised (.clientError resp payload)) : Outcome α) =
      (.raised (.awsCredentialError (error_msg_expired profile)),
        [error_msg_expired profile]) := by
  simp [handle_wrapper, hcode]

/-- Witness for C4 at a concrete ExpiredToken response. -/
theorem wrapper_expired_token_witness :
    handle_wrapper "my-dev"
        ((Outcome.raised (AwsException.clientError
          { error := some { code := some "ExpiredToken", message := none } } "put_object")) :
          Outcome Nat) =
      (.raised (.awsCredentialError (error_msg_expired "my-dev")),
        [error_msg_expired "my-dev"]) :=
  wrapper_expired_token "my-dev" "put_object"
    { error := some { code := some "ExpiredToken", message := none } } rfl

/-- C5: a ClientError carrying any structured code other than
ExpiredToken is re-raised as the very same exception value with nothing
printed, and any failure that is neither TokenRetrievalError nor
ClientError propagates unchanged with nothing printed. -/
theorem wrapper_other_failures_passthrough {α : Type} (profile code payload : String)
    (resp : ClientResponse) (e : AwsException)
    (hcode : getErrorCode resp = .ok code) (hne : code ≠ "ExpiredToken")
    (he : (∀ p, e ≠ .tokenRetrievalError p) ∧ ∀ r p, e ≠ .clientError r p) :
    handle_wrapper profile ((Outcome.raised (.clientError resp payload)) : Outcome α) =
        (.raised (.clientError resp payload), []) ∧
      handle_wrapper profile ((Outcome.raised e) : Outcome α) = (.raised e, []) := by
  constructor
  · simp [handle_wrapper, hcode, hne]
  · cases e with
    | tokenRetrievalError p => exact absurd rfl (he.1 p)
    | clientError r p => exact absurd rfl (he.2 r p)
    | cancelledError p => rfl
    | otherError p => rfl
    | awsCredentialError m => rfl
    | keyError k => rfl

/-- Witness for C5 at a concrete AccessDenied response and a concrete
unrelated failure. -/
theorem wrapper_other_failures_witness :
    handle_wrapper "my-dev"
        ((Outcome.raised (AwsException.clientError
          { error := some { code := some "AccessDenied", message := none } } "list_buckets")) :
          Outcome Nat) =
        (.raised (.clientError
          { error := some { code := some "AccessDenied", message := none } } "list_buckets"),
          []) ∧
      handle_wrapper "my-dev" ((Outcome.raised (AwsException.otherError "boom")) : Outcome Nat) =
        (.raised (.otherError "boom"), []) :=
  wrapper_other_failures_passthrough "my-dev" "AccessDenied" "list_buckets"
    { error := some { code := some "AccessDenied", message := none } }
    (.otherError "boom") rfl (by decide)
    ⟨fun p h => (nomatch h), fun r p h => (nomatch h)⟩

/-- C6: when the ClientError response lacks the Error or Code field, the
wrapper raises the KeyError from the failed lookup — a clear signal that
the inspection failed, naming the missing key — and in particular never
returns a successful result. -/
theorem wrapper_missing_code_signals {α : Type} (profile payload k : String)
    (resp : ClientResponse) (hcode : getErrorCode resp = .error (.keyError k)) :
    handle_wrapper profile ((Outcome.raised (.clientError resp payload)) : Outcome α) =
        (.raised (.keyError k), []) ∧
      ∀ (v : α) (s : List String),
        handle_wrapper profile ((Outcome.raised (.clientError resp payload)) : Outcome α) ≠
          (.ok v, s) := by
  have h1 : handle_wrapper profile ((Outcome.raised (.clientError resp payload)) : Outcome α) =
      (.raised (.keyError k), []) := by
    simp [handle_wrapper, hcode]
  refine ⟨h1, ?_⟩
  intro v s hcontra
  rw [h1] at hcontra
  simp at hcontra

/-- Witness for C6 at a response with no Error field at all. -/
theorem wrapper_missing_code_signals_witness :
    handle_wrapper "my-dev"
        ((Outcome.raised (AwsException.clientError { error := none } "get_object")) :
          Outcome Nat) =
        (.raised (.keyError "Error"), []) ∧
      ∀ (v : Nat) (s : List String),
        handle_wrapper "my-dev"
            ((Outcome.raised (AwsException.clientError { error := none } "get_object")) :
              Outcome Nat) ≠
          (.ok v, s) :=
  wrapper_missing_code_signals "my-dev" "get_object" "Error" { error := none } rfl

/-- C7: a cancellation is caught by neither except clause: it propagates
as the very same exception with nothing printed, and the wrapper never
turns it into an AWSCredentialError. -/
theorem wrapper_cancellation_passthrough {α : Type} (profile payload : String) :
    handle_wrapper profile ((Outcome.raised (.cancelledError payload)) : Outcome α) =
        (.raised (.cancelledError payload), []) ∧
      ∀ (m : String) (s : List String),
        handle_wrapper profile ((Outcome.raised (.cancelledError payload)) : Outcome α) ≠
          (.raised (.awsCredentialError m), s) := by
  refine ⟨rfl, ?_⟩
  intro m s hcontra
  have h2 := congrArg Prod.fst hcontra
  simp [handle_wrapper] at h2

/-- C8: the wrapper contains exactly one call site for the wrapped
operation and no loop; whatever the operation's outcome, the
instrumented run advances the call counter by exactly one. -/
theorem wrapper_calls_exactly_once {α : Type} (profile : String) (op : Outcome α)
    (calls : Nat) :
    (handle_wrapper_instr profile op calls).2 = calls + 1 := rfl

/-- C9: when the table holds no item under the key, get_dynamodb_item
completes successfully and returns the absent value rather than
raising. -/
theorem get_dynamodb_item_missing_returns_none (table : String → Option DynamoItem)
    (key : String) (hmiss : table key = none) :
    get_dynamodb_item table key = .ok none := by
  unfold get_dynamodb_item dynamodb_get_item
  rw [hmiss]

/-- Witness for C9 on an empty table. -/
theorem get_dynamodb_item_missing_returns_none_witness :
    get_dynamodb_item (fun _ => none) "user#42" = .ok none :=
  get_dynamodb_item_missing_returns_none (fun _ => none) "user#42" rfl

/-- C10: put_cloudwatch_log_event suppresses ResourceAlreadyExistsException
from either creation call (any mix of success and already-exists reaches
the put, so the log event is still written), while a ClientError with
any other structured code from the group creation or from the stream
creation propagates to the caller with the event not written. -/
theorem put_cloudwatch_log_event_spec (grpRes strRes putRes : Outcome Unit)
    (code payload : String) (resp : ClientResponse)
    (hg : grpRes = .ok () ∨ ∃ p, grpRes = clientErrWithCode "ResourceAlreadyExistsException" p)
    (hs : strRes = .ok () ∨ ∃ p, strRes = clientErrWithCode "ResourceAlreadyExistsException" p)
    (hcode : getErrorCode resp = .ok code) (hne : code ≠ "ResourceAlreadyExistsException") :
    put_cloudwatch_log_event grpRes strRes putRes = (putRes, true) ∧
      put_cloudwatch_log_event (.raised (.clientError resp payload)) strRes putRes =
        (.raised (.clientError resp payload), false) ∧
      put_cloudwatch_log_event (.ok ()) (.raised (.clientError resp payload)) putRes =
        (.raised (.clientError resp payload), false) := by
  have hge : ensure_create grpRes = .ok () := by
    rcases hg with h | ⟨p, h⟩
    · rw [h]; exact ensure_create_ok
    · rw [h]; exact ensure_create_already_exists p
  have hse : ensure_create strRes = .ok () := by
    rcases hs with h | ⟨p, h⟩
    · rw [h]; exact ensure_create_ok
    · rw [h]; exact ensure_create_already_exists p
  have hbad : ensure_create (.raised (.clientError resp payload)) =
      .raised (.clientError resp payload) := ensure_create_other_code code payload resp hcode hne
  refine ⟨?_, ?_, ?_⟩
  · unfold put_cloudwatch_log_event
    rw [hge, hse]
  · unfold put_cloudwatch_log_event
    rw [hbad]
  · unfold put_cloudwatch_log_event
    rw [hbad]
    rfl

/-- Witness for C10: both creations hit already-exists and the event is
still written; an AccessDenied from either creation propagates. -/
theorem put_cloudwatch_log_event_spec_witness :
    put_cloudwatch_log_event (clientErrWithCode "ResourceAlreadyExistsException" "grp")
        (clientErrWithCode "ResourceAlreadyExistsException" "strm") (.ok ()) =
        (.ok (), true) ∧
      put_cloudwatch_log_event
          (.raised (.clientError
            { error := some { code := some "AccessDenied", message := none } } "grp"))
          (clientErrWithCode "ResourceAlreadyExistsException" "strm") (.ok ()) =
        (.raised (.clientError
          { error := some { code := some "AccessDenied", message := none } } "grp"), false) ∧
      put_cloudwatch_log_event (.ok ())
          (.raised (.clientError
            { error := some { code := some "AccessDenied", message := none } } "grp"))
          (.ok ()) =
        (.raised (.clientError
          { error := some { code := some "AccessDenied", message := none } } "grp"), false) :=
  put_cloudwatch_log_event_spec
    (clientErrWithCode "ResourceAlreadyExistsException" "grp")
    (clientErrWithCode "ResourceAlreadyExistsException" "strm") (.ok ())
    "AccessDenied" "grp"
    { error := some { code := some "AccessDenied", message := none } }
    (Or.inr ⟨"grp", rfl⟩) (Or.inr ⟨"strm", rfl⟩) rfl (by decide)

end AwsSso
